import Mathlib

/-!
Shallow embedding of the Claimify claim-extraction pipeline
(`pipeline.py`, response models from `structured_models_se.py`).

The language-model transport (`llm_client.py`) is external: it is modelled
as an oracle mapping each stage's user prompt to either a raised exception
(`Except.error`, as the client code may raise) or an optional parsed
response (`none` models a null/refused completion).  The system prompts are
fixed per-stage constants, so folding them into the per-stage oracle
function loses nothing.  The NLTK sentence tokenizer is likewise external
and is passed as a function parameter.

Python-specific behaviours (string truthiness, `str.lower`, `str.strip`,
list slicing, `dict.fromkeys` deduplication) are embedded explicitly below,
restricted where noted to the character ranges relevant to this program.
-/

namespace Claimify

/-- Python exception value (only its presence matters to the pipeline). -/
abbrev PyErr := String

/-- Truthiness of an `Optional[str]` Python value: `None` and the empty
string are falsy, every other string is truthy. -/
def pyTruthy : Option String → Bool
  | none => false
  | some s => !s.isEmpty

/-- Attribute read of an `Optional[str]` field at a point where the Python
code treats it as a plain string (the default is never reached on the
truthy paths that use it). -/
def optStr : Option String → String
  | none => ""
  | some s => s

/-- Models Python `str.lower` on one character, restricted to ASCII and the
Latin-1 uppercase letters (which cover the Swedish alphabet used by the
prompts and sentinels); other characters are returned unchanged. -/
def pyLowerChar (c : Char) : Char :=
  if 0x41 ≤ c.toNat ∧ c.toNat ≤ 0x5A then Char.ofNat (c.toNat + 32)
  else if 0xC0 ≤ c.toNat ∧ c.toNat ≤ 0xDE ∧ c.toNat ≠ 0xD7 then Char.ofNat (c.toNat + 32)
  else c

/-- Models Python `str.lower` (see `pyLowerChar` for the character range):
every character of the string is lowercased. -/
def pyLower (s : String) : String :=
  String.mk (s.data.map pyLowerChar)

/-- Models Python `str.isspace`-style membership used by `str.strip` with no
argument, restricted to the ASCII whitespace characters. -/
def pyIsSpace (c : Char) : Bool :=
  c = ' ' ∨ c = '\t' ∨ c = '\n' ∨ c = '\r' ∨ c = '\x0b' ∨ c = '\x0c'

/-- Models Python `str.strip()`: removes leading and trailing whitespace. -/
def pyStrip (s : String) : String :=
  String.mk (((s.data.dropWhile pyIsSpace).reverse.dropWhile pyIsSpace).reverse)

/-- Models the Python list slice `l[start:stop]` for non-negative bounds
(the only case the pipeline produces: both bounds are clamped to `≥ 0`). -/
def pySlice (l : List String) (start stop : Int) : List String :=
  (l.take stop.toNat).drop start.toNat

/-- Models `dict.fromkeys` insertion-order deduplication: keeps the first
occurrence of each string, walking left to right with a seen set. -/
def pyDedupAux : List String → List String → List String
  | [], _ => []
  | x :: xs, seen => if x ∈ seen then pyDedupAux xs seen else x :: pyDedupAux xs (x :: seen)

/-- Models `list(dict.fromkeys(all_claims))` from `ClaimifyPipeline.run`. -/
def pyDedup (l : List String) : List String :=
  pyDedupAux l []

/-- Response model `UrvalsSvar` (Selection stage), from
`structured_models_se.py`.  The pydantic `Literal` verdict field is modelled
as a string, matching the equality test the parser performs. -/
structure UrvalsSvar where
  sprak : String
  mening : String
  tankeprocess : String
  slutlig_bedomning : String
  mening_med_endast_verifierbar_info : Option String
  deriving DecidableEq, Repr

/-- Response model `AvtydningsSvar` (Disambiguation stage). -/
structure AvtydningsSvar where
  ofullstandiga_namn_akronymer_forkortningar : String
  spraklig_tvetydighetsanalys : String
  kravda_andringar : Option String
  avkontextualiserad_mening : Option String
  deriving DecidableEq, Repr

/-- A single claim object (`Pastaende`). -/
structure Pastaende where
  text : String
  verifierbar : Bool
  deriving DecidableEq, Repr

/-- Response model `DekomponeringsSvar` (Decomposition stage). -/
structure DekomponeringsSvar where
  sprak : String
  mening : String
  referentiella_termer : Option String
  maximalt_fortydligad_mening : String
  propositionsintervall : String
  propositioner : List String
  slutgiltiga_pastaenden : List Pastaende
  deriving DecidableEq, Repr

/-- The structured-completion capability, one function per stage (each
stage's system prompt is a fixed constant, so a stage's response is a
function of its user prompt).  `Except.error` models a raised exception in
the client; `Except.ok none` models a null/refused completion. -/
structure Oracle where
  selection : String → Except PyErr (Option UrvalsSvar)
  disambiguation : String → Except PyErr (Option AvtydningsSvar)
  decomposition : String → Except PyErr (Option DekomponeringsSvar)

/-- Embeds `split_into_sentences`: split on newlines, drop blank
paragraphs, tokenize each remaining paragraph with the external sentence
tokenizer, concatenating in paragraph order. -/
def split_into_sentences (sent_tokenize : String → List String) (text : String) : List String :=
  (((text.splitOn "\n").filter (fun para => pyStrip para ≠ "")).map sent_tokenize).flatten

/-- Embeds `create_context_for_sentence`: clamped slice of `p` preceding
and `f` following sentences around `index`, joined with newlines. -/
def create_context_for_sentence (sentences : List String) (index p f : Int) : String :=
  let start : Int := max 0 (index - p)
  let stop : Int := min (sentences.length : Int) (index + f + 1)
  String.intercalate "\n" (pySlice sentences start stop)

/-- Embeds the user-prompt construction shared by all three stage
executors. -/
def make_user_prompt (question excerpt sentence : String) : String :=
  "Fråga:\n" ++ question ++ "\n\nUtdrag:\n" ++ excerpt ++ "\n\nMening:\n" ++ sentence

/-- Embeds `parse_structured_selection_output`, including the unreachable
`elif ... == None` branch that sits inside the truthiness test.  The
surrounding `try/except` cannot fire in the typed model (field access on a
validated record cannot raise). -/
def parse_structured_selection_output (response : UrvalsSvar) (original_sentence : String) :
    String × Option String :=
  if response.slutlig_bedomning = "Innehåller ett specifikt och verifierbart påstående" then
    if pyTruthy response.mening_med_endast_verifierbar_info then
      if pyLower (optStr response.mening_med_endast_verifierbar_info) = "förblir oförändrad" then
        ("verifiable", some original_sentence)
      else if response.mening_med_endast_verifierbar_info = none then
        ("unverifiable", none)
      else
        ("verifiable", some (optStr response.mening_med_endast_verifierbar_info))
    else
      ("verifiable", some original_sentence)
  else
    ("unverifiable", none)

/-- Embeds `run_selection_stage`: one structured request; a null response
maps to the `error` outcome, otherwise the parser decides. -/
def run_selection_stage (client : Oracle) (question excerpt sentence : String) :
    Except PyErr (String × Option String) := do
  let structured_response ← client.selection (make_user_prompt question excerpt sentence)
  match structured_response with
  | none => pure ("error", none)
  | some response => pure (parse_structured_selection_output response sentence)

/-- Embeds `parse_structured_disambiguation_output`: a falsy field (null or
empty) or the sentinel map to `unresolvable`; any other string resolves. -/
def parse_structured_disambiguation_output (response : AvtydningsSvar)
    (original_sentence : String) : String × Option String :=
  if pyTruthy response.avkontextualiserad_mening then
    if optStr response.avkontextualiserad_mening = "Kan inte avkontextualiseras" then
      ("unresolvable", none)
    else
      ("resolved", some (optStr response.avkontextualiserad_mening))
  else
    ("unresolvable", none)

/-- Embeds `run_disambiguation_stage`. -/
def run_disambiguation_stage (client : Oracle) (question excerpt sentence : String) :
    Except PyErr (String × Option String) := do
  let structured_response ← client.disambiguation (make_user_prompt question excerpt sentence)
  match structured_response with
  | none => pure ("error", none)
  | some response => pure (parse_structured_disambiguation_output response sentence)

/-- Embeds `parse_structured_decomposition_output`: project the `text`
field of each final claim object, in order. -/
def parse_structured_decomposition_output (response : DekomponeringsSvar) : List String :=
  response.slutgiltiga_pastaenden.map Pastaende.text

/-- Embeds `run_decomposition_stage`: a null response yields the empty
claim list. -/
def run_decomposition_stage (client : Oracle) (question excerpt sentence : String) :
    Except PyErr (List String) := do
  let structured_response ← client.decomposition (make_user_prompt question excerpt sentence)
  match structured_response with
  | none => pure []
  | some response => pure (parse_structured_decomposition_output response)

/-- Embeds the body of `ClaimifyPipeline.process_sentence` before its
`try/except`, instrumented with the list of stages whose structured request
was issued (in order).  The first component is the list of claims the
sentence appends to the shared claim set (empty when a stage stops the
state machine), or the exception the body raised. -/
def process_sentence_instr (client : Oracle) (question sentence : String) (i : Nat)
    (sentences : List String) : Except PyErr (List String) × List String :=
  let context_excerpt := create_context_for_sentence sentences (i : Int) 5 5
  match run_selection_stage client question context_excerpt sentence with
  | .error e => (.error e, ["selection"])
  | .ok (selection_status, verifiable_sentence) =>
    if selection_status ≠ "verifiable" then (.ok [], ["selection"])
    else
      match run_disambiguation_stage client question context_excerpt
          (optStr verifiable_sentence) with
      | .error e => (.error e, ["selection", "disambiguation"])
      | .ok (disambiguation_status, clarified_sentence) =>
        if disambiguation_status ≠ "resolved" then (.ok [], ["selection", "disambiguation"])
        else
          match run_decomposition_stage client question context_excerpt
              (optStr clarified_sentence) with
          | .error e => (.error e, ["selection", "disambiguation", "decomposition"])
          | .ok extracted_claims =>
            (.ok (if extracted_claims.isEmpty then [] else extracted_claims),
              ["selection", "disambiguation", "decomposition"])

/-- Embeds `ClaimifyPipeline.process_sentence` with its outer `try/except`:
an exception is swallowed and the sentence contributes no claims. -/
def process_sentence (client : Oracle) (question sentence : String) (i : Nat)
    (sentences : List String) : List String :=
  match (process_sentence_instr client question sentence i sentences).1 with
  | .ok claims => claims
  | .error _ => []

/-- Stages invoked (structured requests issued) while processing one
sentence. -/
def process_sentence_calls (client : Oracle) (question sentence : String) (i : Nat)
    (sentences : List String) : List String :=
  (process_sentence_instr client question sentence i sentences).2

/-- The accumulated shared claim list of `ClaimifyPipeline.run` before
deduplication.  Worker threads append their whole per-sentence claim list
atomically under the lock; the model fixes the interleaving to spawn
order (the deduplication properties proved below hold for every
interleaving, being stated over arbitrary lists). -/
def pipeline_all_claims (client : Oracle) (sent_tokenize : String → List String)
    (question text : String) : List String :=
  let sentences := split_into_sentences sent_tokenize text
  (sentences.enum.map (fun p => process_sentence client question p.2 p.1 sentences)).flatten

/-- Embeds `ClaimifyPipeline.run`: blank input short-circuits to the empty
list; otherwise the joined workers' claims are deduplicated preserving
first occurrences. -/
def run (client : Oracle) (sent_tokenize : String → List String)
    (question text : String) : List String :=
  if pyStrip text = "" then []
  else pyDedup (pipeline_all_claims client sent_tokenize question text)

/-- Structured requests issued by an entire `run`, in model order (blank
input issues none: the blank check precedes any stage work). -/
def run_calls (client : Oracle) (sent_tokenize : String → List String)
    (question text : String) : List String :=
  if pyStrip text = "" then []
  else
    let sentences := split_into_sentences sent_tokenize text
    (sentences.enum.map (fun p => process_sentence_calls client question p.2 p.1 sentences)).flatten

/-- A Selection response with a negative verdict. -/
def exSelectionNegative : UrvalsSvar :=
  { sprak := "svenska", mening := "Jag tycker AI är bra.", tankeprocess := "analys",
    slutlig_bedomning := "Innehåller INTE ett specifikt och verifierbart påstående",
    mening_med_endast_verifierbar_info := none }

/-- A Selection response with a positive verdict and a null optional field. -/
def exSelectionPositiveNull : UrvalsSvar :=
  { sprak := "svenska", mening := "Bolaget grundades 2010.", tankeprocess := "analys",
    slutlig_bedomning := "Innehåller ett specifikt och verifierbart påstående",
    mening_med_endast_verifierbar_info := none }

/-- A Selection response with a positive verdict and a case variant of the
unchanged sentinel in the optional field. -/
def exSelectionPositiveCased : UrvalsSvar :=
  { sprak := "svenska", mening := "Bolaget grundades 2010.", tankeprocess := "analys",
    slutlig_bedomning := "Innehåller ett specifikt och verifierbart påstående",
    mening_med_endast_verifierbar_info := some "Förblir oförändrad" }

/-- A Selection response with a positive verdict and a rewritten sentence. -/
def exSelectionPositiveRewrite : UrvalsSvar :=
  { sprak := "svenska", mening := "Bolaget grundades 2010.", tankeprocess := "analys",
    slutlig_bedomning := "Innehåller ett specifikt och verifierbart påstående",
    mening_med_endast_verifierbar_info := some "Bolaget grundades 2010" }

/-- A Disambiguation response whose decontextualised field is the empty
string. -/
def exDisambEmpty : AvtydningsSvar :=
  { ofullstandiga_namn_akronymer_forkortningar := "inga",
    spraklig_tvetydighetsanalys := "ingen tvetydighet",
    kravda_andringar := none, avkontextualiserad_mening := some "" }

/-- A Disambiguation response that resolves to a rewritten sentence. -/
def exDisambResolved : AvtydningsSvar :=
  { ofullstandiga_namn_akronymer_forkortningar := "inga",
    spraklig_tvetydighetsanalys := "ingen tvetydighet",
    kravda_andringar := none,
    avkontextualiserad_mening := some "Bolaget grundades 2010" }

/-- A Decomposition response carrying one final claim. -/
def exDecomp : DekomponeringsSvar :=
  { sprak := "svenska", mening := "Bolaget grundades 2010",
    referentiella_termer := none,
    maximalt_fortydligad_mening := "Bolaget grundades 2010",
    propositionsintervall := "1-1",
    propositioner := ["Bolaget grundades 2010"],
    slutgiltiga_pastaenden := [{ text := "Bolaget grundades 2010", verifierbar := true }] }

/-- An oracle whose Selection verdict is always negative. -/
def oracleSelectionNegative : Oracle :=
  { selection := fun _ => .ok (some exSelectionNegative),
    disambiguation := fun _ => .ok none,
    decomposition := fun _ => .ok none }

/-- An oracle that resolves every sentence but whose Decomposition
completion always returns null. -/
def oracleDecompositionNull : Oracle :=
  { selection := fun _ => .ok (some exSelectionPositiveRewrite),
    disambiguation := fun _ => .ok (some exDisambResolved),
    decomposition := fun _ => .ok none }

/-- An oracle whose Selection call raises an exception. -/
def oracleSelectionRaises : Oracle :=
  { selection := fun _ => .error "boom",
    disambiguation := fun _ => .ok none,
    decomposition := fun _ => .ok none }

/-- An oracle for which every stage succeeds. -/
def oracleHappy : Oracle :=
  { selection := fun _ => .ok (some exSelectionPositiveRewrite),
    disambiguation := fun _ => .ok (some exDisambResolved),
    decomposition := fun _ => .ok (some exDecomp) }

/-- A trivial sentence tokenizer: each paragraph is one sentence. -/
def exTokenize : String → List String := fun para => [para]

/-- Membership in the deduplication walk: an element survives iff it occurs
in the remaining input and is not already in the seen set. -/
theorem mem_pyDedupAux (l : List String) :
    ∀ (seen : List String) (x : String), x ∈ pyDedupAux l seen ↔ x ∈ l ∧ x ∉ seen := by
  induction l with
  | nil => intro seen x; simp [pyDedupAux]
  | cons y ys ih =>
    intro seen x
    by_cases hy : y ∈ seen
    · simp only [pyDedupAux, if_pos hy, ih]
      constructor
      · rintro ⟨hx, hns⟩; exact ⟨List.mem_cons_of_mem _ hx, hns⟩
      · rintro ⟨hx, hns⟩
        rcases List.mem_cons.mp hx with rfl | hx
        · exact absurd hy hns
        · exact ⟨hx, hns⟩
    · simp only [pyDedupAux, if_neg hy, List.mem_cons, ih]
      constructor
      · rintro (rfl | ⟨hx, hns⟩)
        · exact ⟨Or.inl rfl, hy⟩
        · exact ⟨Or.inr hx, fun h => hns (Or.inr h)⟩
      · rintro ⟨rfl | hx, hns⟩
        · exact Or.inl rfl
        · by_cases hxy : x = y
          · exact Or.inl hxy
          · exact Or.inr ⟨hx, fun h => h.elim hxy hns⟩

/-- The deduplication walk never emits a duplicate. -/
theorem nodup_pyDedupAux (l : List String) :
    ∀ seen : List String, (pyDedupAux l seen).Nodup := by
  induction l with
  | nil => intro seen; simp [pyDedupAux]
  | cons y ys ih =>
    intro seen
    by_cases hy : y ∈ seen
    · simpa [pyDedupAux, if_pos hy] using ih seen
    · have h1 : pyDedupAux (y :: ys) seen = y :: pyDedupAux ys (y :: seen) := by
        simp [pyDedupAux, hy]
      rw [h1, List.nodup_cons]
      refine ⟨fun hmem => ?_, ih (y :: seen)⟩
      exact ((mem_pyDedupAux ys (y :: seen) y).mp hmem).2 (List.mem_cons_self y seen)

/-- The deduplication walk emits a subsequence of its input. -/
theorem pyDedupAux_sublist (l : List String) :
    ∀ seen : List String, (pyDedupAux l seen).Sublist l := by
  induction l with
  | nil => intro seen; simp [pyDedupAux]
  | cons y ys ih =>
    intro seen
    by_cases hy : y ∈ seen
    · simpa [pyDedupAux, if_pos hy] using (ih seen).cons y
    · simpa [pyDedupAux, if_neg hy] using (ih (y :: seen)).cons₂ y

/-- Appending one element at the end of the input either disappears (the
element was already seen or occurred earlier) or is emitted at the very
end: first occurrences alone decide the output. -/
theorem pyDedupAux_append (l : List String) :
    ∀ (seen : List String) (x : String),
      pyDedupAux (l ++ [x]) seen =
        pyDedupAux l seen ++ (if x ∈ seen ∨ x ∈ l then [] else [x]) := by
  induction l with
  | nil =>
    intro seen x
    by_cases hx : x ∈ seen <;> simp [pyDedupAux, hx]
  | cons y ys ih =>
    intro seen x
    by_cases hy : y ∈ seen
    · have h1 : pyDedupAux ((y :: ys) ++ [x]) seen = pyDedupAux (ys ++ [x]) seen := by
        simp [pyDedupAux, hy]
      have h2 : pyDedupAux (y :: ys) seen = pyDedupAux ys seen := by
        simp [pyDedupAux, hy]
      rw [h1, h2, ih seen x]
      by_cases hxy : x = y
      · subst hxy
        simp [hy, List.mem_cons]
      · simp [List.mem_cons, hxy]
    · have h1 : pyDedupAux ((y :: ys) ++ [x]) seen = y :: pyDedupAux (ys ++ [x]) (y :: seen) := by
        simp [pyDedupAux, hy]
      have h2 : pyDedupAux (y :: ys) seen = y :: pyDedupAux ys (y :: seen) := by
        simp [pyDedupAux, hy]
      rw [h1, h2, ih (y :: seen) x]
      by_cases hxy : x = y
      · subst hxy
        simp [List.mem_cons, hy]
      · simp [List.mem_cons, hxy, or_assoc]

/-- Deduplicated claim lists contain no duplicates. -/
theorem pyDedup_nodup (l : List String) : (pyDedup l).Nodup :=
  nodup_pyDedupAux l []

/-- Deduplication neither drops a claim entirely nor invents one. -/
theorem mem_pyDedup (l : List String) (x : String) : x ∈ pyDedup l ↔ x ∈ l := by
  simpa using mem_pyDedupAux l [] x

/-- Deduplication emits a subsequence of the accumulated list, so relative
order of the survivors is the accumulated order. -/
theorem pyDedup_sublist (l : List String) : (pyDedup l).Sublist l :=
  pyDedupAux_sublist l []

/-- Snoc characterisation of first-seen deduplication: a later duplicate is
dropped, a new claim is appended at the end — the first occurrence of each
claim determines its position in the output. -/
theorem pyDedup_snoc (l : List String) (x : String) :
    pyDedup (l ++ [x]) = if x ∈ l then pyDedup l else pyDedup l ++ [x] := by
  by_cases hx : x ∈ l <;> simp [pyDedup, pyDedupAux_append, hx]

/-- A string all of whose characters are (Python) whitespace strips to the
empty string. -/
theorem pyStrip_eq_empty_of_all_space (s : String)
    (h : ∀ c ∈ s.data, pyIsSpace c) : pyStrip s = "" := by
  have h1 : s.data.dropWhile pyIsSpace = [] := List.dropWhile_eq_nil_iff.mpr h
  simp [pyStrip, h1]

/-- Python truthiness of `None`. -/
theorem pyTruthy_none : pyTruthy none = false := rfl

/-- Python truthiness of the empty string. -/
theorem pyTruthy_some_empty : pyTruthy (some "") = false := by decide

/-- Python truthiness of a non-empty string. -/
theorem pyTruthy_some_of_ne (s : String) (h : s ≠ "") : pyTruthy (some s) = true := by
  have hb : s.isEmpty = false := by
    cases hb : s.isEmpty
    · rfl
    · exact absurd ((String.isEmpty_iff s).mp hb) h
  simp [pyTruthy, hb]

/-- C1 (counterexample): a structured Selection response with the positive
verdict and a null optional field is parsed as outcome `verifiable` with the
original sentence as payload — not as `unverifiable` as the claim states
(the `== None` test in the source sits inside the truthiness check and is
unreachable). -/
theorem C1_selection_null_field_counterexample :
    parse_structured_selection_output exSelectionPositiveNull "Originalmeningen." =
      ("verifiable", some "Originalmeningen.") ∧
    ("verifiable" : String) ≠ "unverifiable" := by
  exact ⟨by decide, by decide⟩

/-- C1 (amended): for every structured Selection response whose verdict is
positive and whose optional field is null/absent,
`parse_structured_selection_output` returns outcome `verifiable` with the
original input sentence as payload (the null field behaves like the
unchanged sentinel; the null-specific branch in the source is dead code). -/
theorem C1_selection_null_field (response : UrvalsSvar) (original_sentence : String)
    (hverdict : response.slutlig_bedomning =
      "Innehåller ett specifikt och verifierbart påstående")
    (hfield : response.mening_med_endast_verifierbar_info = none) :
    parse_structured_selection_output response original_sentence =
      ("verifiable", some original_sentence) := by
  simp [parse_structured_selection_output, hverdict, hfield, pyTruthy]

/-- C1 witness: the amended statement evaluated at a concrete response. -/
theorem C1_selection_null_field_witness :
    parse_structured_selection_output exSelectionPositiveNull "Originalmeningen." =
      ("verifiable", some "Originalmeningen.") :=
  C1_selection_null_field exSelectionPositiveNull "Originalmeningen." rfl rfl

/-- C2 (counterexample): with a positive verdict, the field value
"Förblir oförändrad" is a string different from the sentinel
"förblir oförändrad", yet the parser returns the original sentence rather
than that string: the sentinel comparison is case-insensitive (`.lower()`),
so a non-sentinel string does not always become the payload. -/
theorem C2_selection_field_counterexample :
    parse_structured_selection_output exSelectionPositiveCased "Originalmeningen." =
      ("verifiable", some "Originalmeningen.") ∧
    ("Förblir oförändrad" : String) ≠ "förblir oförändrad" ∧
    (some "Originalmeningen." : Option String) ≠ some "Förblir oförändrad" := by
  refine ⟨by decide, by decide, by decide⟩

/-- C2 (amended): for every structured Selection response with a positive
verdict and a non-empty optional field `s`: when `s` lowercased equals the
sentinel "förblir oförändrad" (the comparison in the source is
case-insensitive) the outcome is `verifiable` with the original sentence;
otherwise the outcome is `verifiable` with payload exactly `s`.  (An empty
field is falsy in Python and is treated like a null field.) -/
theorem C2_selection_field_mapping (response : UrvalsSvar)
    (original_sentence s : String)
    (hverdict : response.slutlig_bedomning =
      "Innehåller ett specifikt och verifierbart påstående")
    (hfield : response.mening_med_endast_verifierbar_info = some s)
    (hne : s ≠ "") :
    parse_structured_selection_output response original_sentence =
      (if pyLower s = "förblir oförändrad" then ("verifiable", some original_sentence)
       else ("verifiable", some s)) := by
  have ht := pyTruthy_some_of_ne s hne
  by_cases hs : pyLower s = "förblir oförändrad" <;>
    simp [parse_structured_selection_output, hverdict, hfield, ht, optStr, hs]

/-- C2 witness: the amended statement evaluated at a concrete response with
a rewritten (non-sentinel) field. -/
theorem C2_selection_field_mapping_witness :
    parse_structured_selection_output exSelectionPositiveRewrite "Originalmeningen." =
      (if pyLower "Bolaget grundades 2010" = "förblir oförändrad"
       then ("verifiable", some "Originalmeningen.")
       else ("verifiable", some "Bolaget grundades 2010")) :=
  C2_selection_field_mapping exSelectionPositiveRewrite "Originalmeningen."
    "Bolaget grundades 2010" rfl rfl (by decide)

/-- C8 (counterexample): a Disambiguation response whose decontextualised
field is the empty string — neither the sentinel nor null/absent — is
parsed as `unresolvable`, not `resolved` with payload `""` as the claim's
"otherwise" case states (the source tests Python truthiness, and `""` is
falsy). -/
theorem C8_disambiguation_counterexample :
    parse_structured_disambiguation_output exDisambEmpty "Originalmeningen." =
      ("unresolvable", none) ∧
    exDisambEmpty.avkontextualiserad_mening = some "" ∧
    (some "" : Option String) ≠ none ∧
    ("" : String) ≠ "Kan inte avkontextualiseras" ∧
    (("unresolvable", none) : String × Option String) ≠ ("resolved", some "") := by
  refine ⟨by decide, by decide, by decide, by decide, by decide⟩

/-- C8 (amended): for every Disambiguation structured response, a
decontextualised field that is null/absent, empty, or equal to the sentinel
"Kan inte avkontextualiseras" yields outcome `unresolvable` with no
payload; a non-empty non-sentinel field yields `resolved` with that value;
and a null completion response yields outcome `error`. -/
theorem C8_disambiguation_mapping (client : Oracle) (response : AvtydningsSvar)
    (original_sentence question excerpt sentence : String) :
    ((response.avkontextualiserad_mening = none ∨
        response.avkontextualiserad_mening = some "" ∨
        response.avkontextualiserad_mening = some "Kan inte avkontextualiseras") →
      parse_structured_disambiguation_output response original_sentence =
        ("unresolvable", none)) ∧
    (∀ s, response.avkontextualiserad_mening = some s → s ≠ "" →
        s ≠ "Kan inte avkontextualiseras" →
      parse_structured_disambiguation_output response original_sentence =
        ("resolved", some s)) ∧
    (client.disambiguation (make_user_prompt question excerpt sentence) = .ok none →
      run_disambiguation_stage client question excerpt sentence = .ok ("error", none)) := by
  refine ⟨?_, ?_, ?_⟩
  · rintro (h | h | h)
    · simp [parse_structured_disambiguation_output, h, pyTruthy_none]
    · simp [parse_structured_disambiguation_output, h, pyTruthy_some_empty]
    · have h1 : ("Kan inte avkontextualiseras" : String) ≠ "" := by decide
      simp [parse_structured_disambiguation_output, h, pyTruthy_some_of_ne _ h1, optStr]
  · intro s hs hne hsent
    simp [parse_structured_disambiguation_output, hs, pyTruthy_some_of_ne s hne,
      optStr, hsent]
  · intro h
    simp [run_disambiguation_stage, h, Bind.bind, Except.bind, pure, Except.pure]

/-- C8 witness: the amended mapping evaluated at a concrete resolved
response. -/
theorem C8_disambiguation_mapping_witness :
    parse_structured_disambiguation_output exDisambResolved "Originalmeningen." =
      ("resolved", some "Bolaget grundades 2010") :=
  (C8_disambiguation_mapping oracleHappy exDisambResolved "Originalmeningen."
      "q" "e" "s").2.1 "Bolaget grundades 2010" rfl (by decide) (by decide)

/-- C10: whenever the Disambiguation parser returns outcome `resolved`, the
payload is a non-empty string distinct from the sentinel; in particular an
empty decontextualised field maps to `unresolvable`. -/
theorem C10_resolved_payload_invariant (response : AvtydningsSvar)
    (original_sentence : String) (payload : Option String) :
    (parse_structured_disambiguation_output response original_sentence =
        ("resolved", payload) →
      ∃ s, payload = some s ∧ s ≠ "" ∧ s ≠ "Kan inte avkontextualiseras") ∧
    (response.avkontextualiserad_mening = some "" →
      parse_structured_disambiguation_output response original_sentence =
        ("unresolvable", none)) := by
  constructor
  · intro h
    rcases hm : response.avkontextualiserad_mening with _ | s
    · have hp : parse_structured_disambiguation_output response original_sentence =
          ("unresolvable", none) := by
        simp [parse_structured_disambiguation_output, hm, pyTruthy_none]
      rw [hp] at h
      exact absurd (show ("unresolvable" : String) = "resolved" from congrArg Prod.fst h)
        (by decide)
    · by_cases hse : s = ""
      · subst hse
        have hp : parse_structured_disambiguation_output response original_sentence =
            ("unresolvable", none) := by
          simp [parse_structured_disambiguation_output, hm, pyTruthy_some_empty]
        rw [hp] at h
        exact absurd (show ("unresolvable" : String) = "resolved" from congrArg Prod.fst h)
          (by decide)
      · by_cases hsent : s = "Kan inte avkontextualiseras"
        · subst hsent
          have h1 : ("Kan inte avkontextualiseras" : String) ≠ "" := by decide
          have hp : parse_structured_disambiguation_output response original_sentence =
              ("unresolvable", none) := by
            simp [parse_structured_disambiguation_output, hm, pyTruthy_some_of_ne _ h1,
              optStr]
          rw [hp] at h
          exact absurd (show ("unresolvable" : String) = "resolved" from congrArg Prod.fst h)
            (by decide)
        · refine ⟨s, ?_, hse, hsent⟩
          have hp : parse_structured_disambiguation_output response original_sentence =
              ("resolved", some s) := by
            simp [parse_structured_disambiguation_output, hm, pyTruthy_some_of_ne s hse,
              optStr, hsent]
          rw [hp] at h
          exact (congrArg Prod.snd h).symm
  · intro h
    simp [parse_structured_disambiguation_output, h, pyTruthy_some_empty]

/-- C10 witness: the invariant evaluated at a concrete resolved response. -/
theorem C10_resolved_payload_invariant_witness :
    ∃ s, (some "Bolaget grundades 2010" : Option String) = some s ∧ s ≠ "" ∧
      s ≠ "Kan inte avkontextualiseras" :=
  (C10_resolved_payload_invariant exDisambResolved "Originalmeningen."
      (some "Bolaget grundades 2010")).1 (by decide)

/-- A list of lists all of which are empty flattens to the empty list. -/
theorem flatten_eq_nil_of_all_nil (L : List (List String)) (h : ∀ l ∈ L, l = []) :
    L.flatten = [] := by
  induction L with
  | nil => rfl
  | cons x xs ih =>
    rw [List.flatten_cons, h x (List.mem_cons_self x xs),
      ih (fun l hl => h l (List.mem_cons_of_mem x hl))]
    rfl

/-- If the Decomposition completion always returns null, a sentence worker
contributes no claims (whatever the other stages answer). -/
theorem process_sentence_of_decomposition_none (client : Oracle)
    (hdec : ∀ prompt, client.decomposition prompt = .ok none)
    (question sentence : String) (i : Nat) (sentences : List String) :
    process_sentence client question sentence i sentences = [] := by
  have hrd : ∀ excerpt s, run_decomposition_stage client question excerpt s = .ok [] := by
    intro excerpt s
    simp [run_decomposition_stage, hdec, Bind.bind, Except.bind, pure, Except.pure]
  rcases hsel : run_selection_stage client question
      (create_context_for_sentence sentences (i : Int) 5 5) sentence with e | ⟨st, p⟩
  · simp [process_sentence, process_sentence_instr, hsel]
  · by_cases hst : st = "verifiable"
    · subst hst
      rcases hdis : run_disambiguation_stage client question
          (create_context_for_sentence sentences (i : Int) 5 5) (optStr p) with e | ⟨st2, p2⟩
      · simp [process_sentence, process_sentence_instr, hsel, hdis]
      · by_cases hst2 : st2 = "resolved"
        · subst hst2
          simp [process_sentence, process_sentence_instr, hsel, hdis, hrd]
        · simp [process_sentence, process_sentence_instr, hsel, hdis, hst2]
    · simp [process_sentence, process_sentence_instr, hsel, hst]

/-- C3: a sentence whose Selection outcome is not `verifiable` triggers no
Disambiguation or Decomposition request and contributes zero claims; a
sentence whose Disambiguation outcome is not `resolved` triggers no
Decomposition request and contributes zero claims. -/
theorem C3_stage_short_circuit (client : Oracle) (question sentence : String) (i : Nat)
    (sentences : List String) :
    (∀ st payload,
        run_selection_stage client question
            (create_context_for_sentence sentences (i : Int) 5 5) sentence =
          .ok (st, payload) →
        st ≠ "verifiable" →
        process_sentence_calls client question sentence i sentences = ["selection"] ∧
        process_sentence client question sentence i sentences = []) ∧
    (∀ payload st2 payload2,
        run_selection_stage client question
            (create_context_for_sentence sentences (i : Int) 5 5) sentence =
          .ok ("verifiable", payload) →
        run_disambiguation_stage client question
            (create_context_for_sentence sentences (i : Int) 5 5) (optStr payload) =
          .ok (st2, payload2) →
        st2 ≠ "resolved" →
        process_sentence_calls client question sentence i sentences =
          ["selection", "disambiguation"] ∧
        process_sentence client question sentence i sentences = []) := by
  constructor
  · intro st payload hsel hst
    constructor <;>
      simp [process_sentence_calls, process_sentence, process_sentence_instr, hsel, hst]
  · intro payload st2 payload2 hsel hdis hst2
    constructor <;>
      simp [process_sentence_calls, process_sentence, process_sentence_instr,
        hsel, hdis, hst2]

/-- C3 witness: a concrete oracle whose Selection verdict is negative. -/
theorem C3_stage_short_circuit_witness :
    process_sentence_calls oracleSelectionNegative "q" "s" 0 ["s"] = ["selection"] ∧
    process_sentence oracleSelectionNegative "q" "s" 0 ["s"] = [] :=
  (C3_stage_short_circuit oracleSelectionNegative "q" "s" 0 ["s"]).1
    "unverifiable" none rfl (by decide)

/-- C9: an exception raised inside the sentence worker is caught at the
worker boundary: the worker returns normally with zero claims; in
particular a Selection capability call that raises stops the worker after
that single stage call. -/
theorem C9_worker_exception_containment (client : Oracle) (question sentence : String)
    (i : Nat) (sentences : List String) :
    (∀ e, (process_sentence_instr client question sentence i sentences).1 = .error e →
        process_sentence client question sentence i sentences = []) ∧
    (∀ e, client.selection (make_user_prompt question
            (create_context_for_sentence sentences (i : Int) 5 5) sentence) = .error e →
        process_sentence client question sentence i sentences = [] ∧
        process_sentence_calls client question sentence i sentences = ["selection"]) := by
  constructor
  · intro e he
    simp [process_sentence, he]
  · intro e he
    have hsel : run_selection_stage client question
        (create_context_for_sentence sentences (i : Int) 5 5) sentence = .error e := by
      simp [run_selection_stage, he, Bind.bind, Except.bind]
    constructor <;>
      simp [process_sentence, process_sentence_calls, process_sentence_instr, hsel]

/-- C9 witness: a concrete oracle whose Selection call raises. -/
theorem C9_worker_exception_containment_witness :
    process_sentence oracleSelectionRaises "q" "s" 0 ["s"] = [] ∧
    process_sentence_calls oracleSelectionRaises "q" "s" 0 ["s"] = ["selection"] :=
  (C9_worker_exception_containment oracleSelectionRaises "q" "s" 0 ["s"]).2 "boom" rfl

/-- C6: the context excerpt is exactly the clamped slice
`[max(0, index-p), min(N, index+f+1))` joined with newlines; at index `0`
it never reaches before the first sentence, and at the last index it never
reaches past the final sentence. -/
theorem C6_context_window (sentences : List String) (index p f : Nat)
    (h : index < sentences.length) :
    create_context_for_sentence sentences (index : Int) (p : Int) (f : Int) =
      String.intercalate "\n"
        ((sentences.take (min sentences.length (index + f + 1))).drop (index - p)) ∧
    (index = 0 →
      create_context_for_sentence sentences (index : Int) (p : Int) (f : Int) =
        String.intercalate "\n" (sentences.take (min sentences.length (f + 1)))) ∧
    (index = sentences.length - 1 →
      create_context_for_sentence sentences (index : Int) (p : Int) (f : Int) =
        String.intercalate "\n" (sentences.drop (index - p))) := by
  have hstart : (max 0 ((index : Int) - (p : Int))).toNat = index - p := by omega
  have hstop : (min ((sentences.length : Int)) ((index : Int) + (f : Int) + 1)).toNat =
      min sentences.length (index + f + 1) := by omega
  have hmain : create_context_for_sentence sentences (index : Int) (p : Int) (f : Int) =
      String.intercalate "\n"
        ((sentences.take (min sentences.length (index + f + 1))).drop (index - p)) := by
    simp only [create_context_for_sentence, pySlice, hstart, hstop]
  refine ⟨hmain, ?_, ?_⟩
  · intro h0
    subst h0
    simpa using hmain
  · intro hl
    rw [hmain]
    have hmin : min sentences.length (index + f + 1) = sentences.length := by omega
    rw [hmin, List.take_length]

/-- C6 witness: the slice equation at a concrete three-sentence list. -/
theorem C6_context_window_witness :
    create_context_for_sentence ["s0", "s1", "s2"] ((1 : Nat) : Int) ((5 : Nat) : Int)
        ((5 : Nat) : Int) =
      String.intercalate "\n"
        (((["s0", "s1", "s2"] : List String).take
          (min (["s0", "s1", "s2"] : List String).length (1 + 5 + 1))).drop (1 - 5)) :=
  (C6_context_window ["s0", "s1", "s2"] 1 5 5 (by decide)).1

/-- C7: the Decomposition stage projects the text of each returned claim
object in order; a null completion response yields the empty claim list;
and with a Decomposition capability that always returns null, the whole
pipeline still completes normally, returning the empty claim list. -/
theorem C7_decomposition_stage (client : Oracle) (question excerpt sentence : String) :
    (client.decomposition (make_user_prompt question excerpt sentence) = .ok none →
      run_decomposition_stage client question excerpt sentence = .ok []) ∧
    (∀ response,
      client.decomposition (make_user_prompt question excerpt sentence) = .ok (some response) →
      run_decomposition_stage client question excerpt sentence =
        .ok (response.slutgiltiga_pastaenden.map Pastaende.text)) ∧
    ((∀ prompt, client.decomposition prompt = .ok none) →
      ∀ (sent_tokenize : String → List String) (text : String),
        run client sent_tokenize question text = []) := by
  refine ⟨?_, ?_, ?_⟩
  · intro h
    simp [run_decomposition_stage, h, Bind.bind, Except.bind, pure, Except.pure]
  · intro response h
    simp [run_decomposition_stage, h, parse_structured_decomposition_output,
      Bind.bind, Except.bind, pure, Except.pure]
  · intro hdec sent_tokenize text
    unfold run
    split
    · rfl
    · have hall : ∀ l ∈ (split_into_sentences sent_tokenize text).enum.map
          (fun q => process_sentence client question q.2 q.1
            (split_into_sentences sent_tokenize text)), l = ([] : List String) := by
        intro l hl
        obtain ⟨q, hq, rfl⟩ := List.mem_map.mp hl
        exact process_sentence_of_decomposition_none client hdec question q.2 q.1 _
      unfold pipeline_all_claims
      rw [flatten_eq_nil_of_all_nil _ hall]
      rfl

/-- C7 witness: the null-response equation at a concrete oracle. -/
theorem C7_decomposition_stage_witness :
    run_decomposition_stage oracleDecompositionNull "q" "e" "s" = .ok [] :=
  (C7_decomposition_stage oracleDecompositionNull "q" "e" "s").1 rfl

/-- C4: the sequence returned by `run` has no duplicates under exact string
equality, it is the first-seen deduplication of the accumulated claim list,
and `pyDedup` preserves first-occurrence order: it emits a subsequence of
the accumulated list with unchanged membership, and appending a later
duplicate never changes the output while a first occurrence is appended at
the end. -/
theorem C4_run_dedup (client : Oracle) (sent_tokenize : String → List String)
    (question text : String) :
    (run client sent_tokenize question text).Nodup ∧
    (pyStrip text ≠ "" →
      run client sent_tokenize question text =
        pyDedup (pipeline_all_claims client sent_tokenize question text)) ∧
    (∀ (l : List String) (x : String),
      pyDedup (l ++ [x]) = if x ∈ l then pyDedup l else pyDedup l ++ [x]) ∧
    (∀ l : List String, (pyDedup l).Sublist l) ∧
    (∀ (l : List String) (x : String), x ∈ pyDedup l ↔ x ∈ l) := by
  refine ⟨?_, ?_, pyDedup_snoc, pyDedup_sublist, mem_pyDedup⟩
  · unfold run
    split
    · exact List.nodup_nil
    · exact pyDedup_nodup _
  · intro h
    simp [run, h]

/-- C4 witness: the dedup equation at a concrete non-blank input. -/
theorem C4_run_dedup_witness :
    run oracleHappy exTokenize "q" "Bolaget grundades 2010." =
      pyDedup (pipeline_all_claims oracleHappy exTokenize "q" "Bolaget grundades 2010.") :=
  (C4_run_dedup oracleHappy exTokenize "q" "Bolaget grundades 2010.").2.1 (by decide)

/-- C5: blank or whitespace-only input makes `run` return the empty
sequence with no structured-completion request issued at all. -/
theorem C5_blank_input (client : Oracle) (sent_tokenize : String → List String)
    (question text : String) (h : ∀ c ∈ text.data, pyIsSpace c) :
    run client sent_tokenize question text = [] ∧
    run_calls client sent_tokenize question text = [] := by
  have hb := pyStrip_eq_empty_of_all_space text h
  constructor <;> simp [run, run_calls, hb]

/-- C5 witness: a concrete whitespace-only input. -/
theorem C5_blank_input_witness :
    run oracleHappy exTokenize "q" " \n\t " = [] ∧
    run_calls oracleHappy exTokenize "q" " \n\t " = [] :=
  C5_blank_input oracleHappy exTokenize "q" " \n\t " (by decide)

end Claimify
